import Mathlib

/-!
Verification of the CVE MCP server core (tool registry, RBAC-gated dispatch,
rule-based query router) of the LLM_Agent_Jinja repository, as a shallow
embedding translated from the Python sources:
  mcp_server/models/product_profile.py, mcp_server/tools/registry.py,
  mcp_server/main.py, mcp_server/tools/cve_tools.py,
  cve_agent_pkg/mcp/agent.py.
Python strings are modelled as Lean strings (lower/upper-casing modelled on
ASCII, which covers every string the embedded code compares against); Python
dicts holding tools are modelled as insertion-ordered association lists with
in-place overwrite, matching CPython dict semantics; raised exceptions are
modelled with an explicit `Except` result.
-/

namespace CveMcp

/-- Single-quote character, used to build the exact Python message strings. -/
def sq : String := String.singleton (Char.ofNat 39)

/-- ASCII model of Python str.lower on the character list of a string. -/
def pyLower (s : List Char) : List Char := s.map Char.toLower

/-- ASCII model of Python str.upper. -/
def pyUpper (s : List Char) : List Char := s.map Char.toUpper

/-- The six ASCII characters Python str.strip removes by default. -/
def isPySpace (c : Char) : Bool :=
  c == ' ' || c == '\t' || c == '\n' || c == '\r' || c == '\x0b' || c == '\x0c'

/-- Model of Python str.strip (default whitespace stripping). -/
def pyStrip (s : List Char) : List Char :=
  ((s.dropWhile isPySpace).reverse.dropWhile isPySpace).reverse

/-- Worker for the model of Python str.replace. The fuel argument only
bounds the recursion depth so that the definition is structural (and hence
computes definitionally); one character of the subject is consumed per
step, so fuel = length of the subject always suffices. -/
def replaceAllAux (pat repl : List Char) : Nat → List Char → List Char
  | 0, s => s
  | _ + 1, [] => []
  | fuel + 1, c :: rest =>
    if pat ≠ [] ∧ pat.isPrefixOf (c :: rest) then
      repl ++ replaceAllAux pat repl fuel (rest.drop (pat.length - 1))
    else
      c :: replaceAllAux pat repl fuel rest

/-- Model of Python str.replace: replace every non-overlapping occurrence of
`pat` in `s` by `repl`, scanning left to right. `pat` is assumed non-empty
(every pattern the embedded code replaces is non-empty). -/
def replaceAll (pat repl s : List Char) : List Char :=
  replaceAllAux pat repl s.length s

/-- Decidable substring test on character lists: does `needle` occur as a
contiguous run inside `haystack`? -/
def listInfix (needle : List Char) : List Char → Bool
  | [] => needle.isPrefixOf []
  | c :: rest => needle.isPrefixOf (c :: rest) || listInfix needle rest

/-- Model of the Python substring test `needle in haystack`. -/
def pySubstr (needle : String) (haystack : List Char) : Bool :=
  listInfix needle.toList haystack

/-- mcp_server/models/product_profile.py: the ProductProfile enum, in
declaration order COMMON, ADMIN, PREMIUM, BASIC. -/
inductive ProductProfile where
  | COMMON
  | ADMIN
  | PREMIUM
  | BASIC
deriving DecidableEq

/-- The canonical code of each profile (the enum member value). -/
def ProductProfile.value : ProductProfile → String
  | .COMMON => "common"
  | .ADMIN => "admin"
  | .PREMIUM => "premium"
  | .BASIC => "basic"

/-- Enum iteration order `for profile in cls`, which follows declaration
order in product_profile.py. -/
def ProductProfile.all : List ProductProfile :=
  [.COMMON, .ADMIN, .PREMIUM, .BASIC]

/-- ProductProfile.from_code: lower-case the input, return the first
enumerated member whose value equals it, else COMMON. Total by construction
(the Python body has no raise path). -/
def ProductProfile.from_code (code : String) : ProductProfile :=
  match ProductProfile.all.find?
      (fun p => p.value == String.mk (pyLower code.toList)) with
  | some p => p
  | none => ProductProfile.COMMON

/-- Model of Python values exchanged with the tool layer: argument values,
Mongo documents (dicts), and tool return values. Floats never occur in the
values the proved claims inspect. -/
inductive PyVal where
  | null
  | bool (b : Bool)
  | int (n : Int)
  | str (s : String)
  | list (xs : List PyVal)
  | dict (fields : List (String × PyVal))

/-- Python dict lookup on a modelled dict value (first binding wins; the
embedded code never builds duplicate keys). -/
def PyVal.get : PyVal → String → Option PyVal
  | .dict fields, k => (fields.find? (fun kv => kv.1 == k)).map Prod.snd
  | _, _ => none

/-- Keyword arguments of a tool call (the `arguments` mapping). -/
def Args : Type := List (String × PyVal)

/-- An exception escaping a bound callable: FastAPI HTTPException (carrying
a status code and detail) or any other exception (carrying str(e)). The two
cases mirror the two except clauses of mcp_server/main.py call_tool. -/
inductive PyExc where
  | httpExc (statusCode : Nat) (detail : String)
  | exc (msg : String)

/-- A bound tool callable: kwargs in, either a return value or a raised
exception out. Await-normalization of async callables is the identity on
the final outcome and is therefore absorbed into the function itself. -/
def ToolFn : Type := Args → Except PyExc PyVal

/-- Input schema of a tool, as built by MCPToolRegistry.tool: parameter name
to JSON type tag, plus the list of required parameter names. Explicitly
supplied schemas carry further JSON keys (enum, default, description) that
no embedded operation reads; they are not represented. -/
structure Schema where
  properties : List (String × String)
  required : List String
deriving DecidableEq

/-- Python type annotation of a callable parameter, as inspected by
MCPToolRegistry.tool. `other` stands for any annotation that is none of
int, float, bool (e.g. str, Dict, Optional). -/
inductive PyTy where
  | int
  | float
  | bool
  | other (tyName : String)
deriving DecidableEq

/-- One declared parameter of a registered callable: its name, its
annotation (none models inspect.Parameter.empty), and whether a default
value is declared. -/
structure PyParam where
  name : String
  ann : Option PyTy
  hasDefault : Bool
deriving DecidableEq

/-- mcp_server/tools/registry.py Tool: the descriptor held by the registry. -/
structure Tool where
  name : String
  func : ToolFn
  description : String
  input_schema : Schema
  product_profiles : List ProductProfile
  metadata : List (String × PyVal)

/-- Tool.__init__: `product_profiles or [ProductProfile.COMMON]` substitutes
the default for BOTH None and the (falsy) empty list; `metadata or {}`
likewise. -/
def Tool.make (name : String) (func : ToolFn) (description : String)
    (input_schema : Schema) (product_profiles : Option (List ProductProfile))
    (metadata : Option (List (String × PyVal))) : Tool :=
  { name := name
    func := func
    description := description
    input_schema := input_schema
    product_profiles :=
      match product_profiles with
      | none => [ProductProfile.COMMON]
      | some ps => if ps = [] then [ProductProfile.COMMON] else ps
    metadata :=
      match metadata with
      | none => []
      | some m => m }

/-- Tool.execute: runs the bound callable inside try/except that logs and
re-raises, so the outcome is exactly the outcome of the callable. -/
def Tool.execute (t : Tool) (kwargs : Args) : Except PyExc PyVal :=
  t.func kwargs

/-- MCPToolRegistry: `self._tools` is a Python dict from tool name to Tool,
modelled as an insertion-ordered association list. -/
structure MCPToolRegistry where
  tools : List (String × Tool)

/-- The empty registry built by MCPToolRegistry.__init__. -/
def MCPToolRegistry.init : MCPToolRegistry := ⟨[]⟩

/-- CPython dict assignment `d[k] = v`: overwrite in place when the key is
present (keeping its position), append otherwise. -/
def dictInsert (k : String) (v : Tool) : List (String × Tool) → List (String × Tool)
  | [] => [(k, v)]
  | (k₀, v₀) :: rest =>
    if k₀ = k then (k, v) :: rest else (k₀, v₀) :: dictInsert k v rest

/-- MCPToolRegistry.register_tool: construct the Tool and store it under
`name` (silent overwrite on collision). -/
def MCPToolRegistry.register_tool (reg : MCPToolRegistry) (name : String)
    (func : ToolFn) (description : String) (input_schema : Schema)
    (product_profiles : Option (List ProductProfile))
    (metadata : Option (List (String × PyVal))) : MCPToolRegistry :=
  ⟨dictInsert name
    (Tool.make name func description input_schema product_profiles metadata)
    reg.tools⟩

/-- MCPToolRegistry.get_tool: `self._tools.get(name)`. -/
def MCPToolRegistry.get_tool (reg : MCPToolRegistry) (name : String) : Option Tool :=
  (reg.tools.find? (fun kv => kv.1 == name)).map Prod.snd

/-- `self._tools.values()` in registration order. -/
def MCPToolRegistry.values (reg : MCPToolRegistry) : List Tool :=
  reg.tools.map Prod.snd

/-- MCPToolRegistry.list_tools: all tools when the profile is omitted or is
ADMIN, otherwise the tools whose product_profiles contain the profile. -/
def MCPToolRegistry.list_tools (reg : MCPToolRegistry)
    (product_profile : Option ProductProfile) : List Tool :=
  match product_profile with
  | none => reg.values
  | some p =>
    if p = ProductProfile.ADMIN then reg.values
    else reg.values.filter (fun t => t.product_profiles.contains p)

/-- The JSON type tag MCPToolRegistry.tool assigns to a parameter: "string"
by default; for an annotated parameter, "integer" for int, "number" for
float, "boolean" for bool, and "string" for anything else. -/
def paramTypeTag : Option PyTy → String
  | some .int => "integer"
  | some .float => "number"
  | some .bool => "boolean"
  | some (.other _) => "string"
  | none => "string"

/-- The schema MCPToolRegistry.tool derives from a callable signature when
no explicit input_schema is given: every declared parameter appears under
properties with its type tag, and is listed under required exactly when it
declares no default value. -/
def derive_schema (params : List PyParam) : Schema :=
  { properties := params.map (fun p => (p.name, paramTypeTag p.ann))
    required := (params.filter (fun p => !p.hasDefault)).map (fun p => p.name) }

/-- A Python callable as seen by the registration decorator: its __name__,
its __doc__ (none models a missing docstring), its declared parameters, and
its behaviour. -/
structure FuncDecl where
  name : String
  doc : Option String
  params : List PyParam
  fn : ToolFn

/-- Python `a or b` on an optional string: None and the empty string are
falsy. -/
def pyStrOr (a : Option String) (b : String) : String :=
  match a with
  | none => b
  | some s => if s = "" then b else s

/-- The description MCPToolRegistry.tool picks:
`description or func.__doc__ or f"Tool: {tool_name}"`. -/
def toolDescription (description : Option String) (f : FuncDecl) : String :=
  pyStrOr description (pyStrOr f.doc ("Tool: " ++ f.name))

/-- MCPToolRegistry.tool: the registration decorator. Derives the schema
from the signature when none is supplied, then registers under the
function name. -/
def MCPToolRegistry.tool (reg : MCPToolRegistry) (description : Option String)
    (input_schema : Option Schema) (product_profiles : Option (List ProductProfile))
    (metadata : Option (List (String × PyVal))) (f : FuncDecl) : MCPToolRegistry :=
  let tool_input_schema :=
    match input_schema with
    | none => derive_schema f.params
    | some s => s
  reg.register_tool f.name f.fn (toolDescription description f)
    tool_input_schema product_profiles metadata

/-- One registration call against the process-wide registry: either a direct
register_tool call or a decorator application. Every way the repository adds
a tool goes through one of these two. -/
inductive RegistryOp where
  | register (name : String) (func : ToolFn) (description : String)
      (input_schema : Schema) (product_profiles : Option (List ProductProfile))
      (metadata : Option (List (String × PyVal)))
  | decorate (description : Option String) (input_schema : Option Schema)
      (product_profiles : Option (List ProductProfile))
      (metadata : Option (List (String × PyVal))) (f : FuncDecl)

/-- Apply one registration call. -/
def MCPToolRegistry.applyOp (reg : MCPToolRegistry) : RegistryOp → MCPToolRegistry
  | .register name func description input_schema product_profiles metadata =>
    reg.register_tool name func description input_schema product_profiles metadata
  | .decorate description input_schema product_profiles metadata f =>
    reg.tool description input_schema product_profiles metadata f

/-- The registry after a startup sequence of registration calls. -/
def MCPToolRegistry.applyOps (reg : MCPToolRegistry) (ops : List RegistryOp) :
    MCPToolRegistry :=
  ops.foldl MCPToolRegistry.applyOp reg

/-- The outcome of the /tools/call endpoint as its caller observes it:
either the ToolCallResponse envelope (status, result, error), or an
HTTPException propagating out of the handler, which FastAPI surfaces as an
HTTP error response with the given status code and detail string. -/
inductive DispatchOutcome where
  | envelope (status : String) (result : Option PyVal) (error : Option String)
  | httpError (statusCode : Nat) (detail : String)

/-- Detail string of the 404 raised for an unknown tool name:
f-string `Tool      name    not found` with the name in single quotes. -/
def toolNotFoundDetail (name : String) : String :=
  "Tool " ++ sq ++ name ++ sq ++ " not found"

/-- Python repr of a list of strings, as interpolated by the f-string in the
403 detail. -/
def pyListRepr (xs : List String) : String :=
  "[" ++ String.intercalate ", " (xs.map (fun s => sq ++ s ++ sq)) ++ "]"

/-- Detail string of the 403 raised on a profile mismatch, naming the values
of the required profile set. -/
def accessDeniedDetail (ps : List ProductProfile) : String :=
  "Access denied. Tool requires one of: " ++ pyListRepr (ps.map ProductProfile.value)

/-- Invocation step of call_tool: await tool.execute(**arguments) inside the
try block. A normal return becomes ToolCallResponse(status="success",
result=result); a raised HTTPException is re-raised by the first except
clause; any other exception is converted by the second except clause into
ToolCallResponse(status="error", error=str(e)). -/
def invoke (t : Tool) (arguments : Args) : DispatchOutcome :=
  match t.execute arguments with
  | .ok result => .envelope "success" (some result) none
  | .error (.httpExc statusCode detail) => .httpError statusCode detail
  | .error (.exc msg) => .envelope "error" none (some msg)

/-- mcp_server/main.py call_tool: the dispatcher. Convert the
Product-Profile header via from_code (its try/except is dead code since
from_code never raises), resolve the tool (404 when absent), check
authorization (403 when the profile is neither a member of the tool set nor
ADMIN), then invoke. The Bool records whether the bound callable was
invoked. -/
def call_tool (reg : MCPToolRegistry) (tool_name : String) (arguments : Args)
    (product_profile : String) : DispatchOutcome × Bool :=
  let profile_enum := ProductProfile.from_code product_profile
  match reg.get_tool tool_name with
  | none => (.httpError 404 (toolNotFoundDetail tool_name), false)
  | some tool =>
    if ¬ tool.product_profiles.contains profile_enum ∧
        profile_enum ≠ ProductProfile.ADMIN then
      (.httpError 403 (accessDeniedDetail tool.product_profiles), false)
    else
      (invoke tool arguments, true)

/-- The Mongo repository methods the two embedded tools call (an excluded
external collaborator per the spec): lookup of one document by CVE number
(None when absent or inactive) and the severity search returning a list of
documents. Documents are Python dicts, modelled as PyVal. -/
structure CveDb where
  find_by_cve_number : String → Option PyVal
  find_by_severity : String → Int → List PyVal

/-- The Jinja template renderer (an excluded external collaborator per the
spec): pure record-to-text functions. -/
structure Renderer where
  render_cve_json : PyVal → String
  render_cve_markdown : PyVal → String
  render_cve_summary : PyVal → String
  render_cve_detailed : PyVal → String
  render_cve_list : List PyVal → String

/-- mcp_server/tools/cve_tools.py get_cve_details: look up the CVE; when
found, render per output_format and return the success dict; when absent,
return the tool-level error dict with a message. -/
def get_cve_details (db : CveDb) (r : Renderer) (cve_id : String)
    (output_format : String) : PyVal :=
  match db.find_by_cve_number cve_id with
  | some cve_data =>
    let rendered :=
      if output_format = "json" then r.render_cve_json cve_data
      else if output_format = "markdown" then r.render_cve_markdown cve_data
      else if output_format = "summary" then r.render_cve_summary cve_data
      else r.render_cve_detailed cve_data
    .dict [("status", .str "success"), ("data", cve_data),
           ("rendered", .str rendered), ("format", .str output_format)]
  | none =>
    .dict [("status", .str "error"),
           ("message", .str ("CVE " ++ cve_id ++ " not found"))]

/-- mcp_server/tools/cve_tools.py search_cves_by_severity: run the severity
query, render the list only when output_format is "list" and the result is
non-empty (rendered is None otherwise), and return the success dict with
the count — also when zero records matched. -/
def search_cves_by_severity (db : CveDb) (r : Renderer) (severity : String)
    (limit : Int) (output_format : String) : PyVal :=
  let cves := db.find_by_severity severity limit
  let rendered : PyVal :=
    if output_format == "list" && !cves.isEmpty then .str (r.render_cve_list cves)
    else .null
  .dict [("status", .str "success"), ("count", .int cves.length),
         ("data", .list cves), ("rendered", rendered),
         ("format", .str output_format)]

/-- The routing outcome of MCPAgent._process_rule_based in
cve_agent_pkg/mcp/agent.py: either a tool call (the tool_called and
tool_arguments fields of the returned dict) or the help-message response
(the response field; success is True and no tool is invoked). The result of
the embedded execute_tool network call also carried in the returned dict is
external to the routing decision and is not modelled. -/
inductive RuleDecision where
  | toolCall (tool_called : String) (tool_arguments : List (String × PyVal))
  | helpMessage (response : String)

/-- Attempt to match the regex `cve-\d{4}-\d{4,}` at the head of the list:
literal "cve-", exactly four digits, a hyphen, then a maximal run of at
least four digits. Returns the length of the match. -/
def matchCveAt (s : List Char) : Option Nat :=
  match s with
  | 'c' :: 'v' :: 'e' :: '-' :: d1 :: d2 :: d3 :: d4 :: '-' :: rest =>
    if d1.isDigit && d2.isDigit && d3.isDigit && d4.isDigit then
      let ds := rest.takeWhile Char.isDigit
      if ds.length ≥ 4 then some (9 + ds.length) else none
    else none
  | _ => none

/-- re.search of `cve-\d{4}-\d{4,}`: the leftmost match, as a character
list. -/
def findCveMatch : List Char → Option (List Char)
  | [] => none
  | c :: rest =>
    match matchCveAt (c :: rest) with
    | some n => some ((c :: rest).take n)
    | none => findCveMatch rest

/-- The maturity_map dict of _process_rule_based, in insertion order. -/
def maturityMap : List (String × String) :=
  [("functional", "Functional"), ("proof of concept", "Proof of Concept"),
   ("high", "High"), ("unproven", "Unproven")]

/-- The maturity-keyword loop: the first map entry whose key occurs in the
lowered query selects its maturity label. -/
def findMaturity (ql : List Char) : Option String :=
  (maturityMap.find? (fun kv => pySubstr kv.1 ql)).map Prod.snd

/-- The keyword residue of the keyword-search branch: the lowered query with
every occurrence of "search for", "find", "look for" removed, stripped. -/
def strippedKeywords (ql : List Char) : List Char :=
  pyStrip (replaceAll "look for".toList []
    (replaceAll "find".toList []
      (replaceAll "search for".toList [] ql)))

/-- The help-message text of the final branch of _process_rule_based. -/
def helpText : String :=
  "Try: " ++ sq ++ "Show me CVE-XXXX-XXXX" ++ sq ++ ", " ++ sq ++
    "Find functional exploits" ++ sq ++ ", or " ++ sq ++
    "Search for SQL injection" ++ sq

/-- cve_agent_pkg/mcp/agent.py MCPAgent._process_rule_based, reduced to its
routing decision. Order of the rules: CVE-identifier regex, then the
maturity_map keyword loop, then the search/find/look keyword-search branch
(skipped when the stripped residue is empty), then the help message. -/
def process_rule_based (user_query : String) : RuleDecision :=
  let ql := pyLower user_query.toList
  match findCveMatch ql with
  | some m =>
    let cve_id := String.mk (pyUpper m)
    let format_type := if pySubstr "summary" ql then "summary" else "detailed"
    .toolCall "get_cve_details"
      [("cve_id", .str cve_id), ("format", .str format_type)]
  | none =>
    match findMaturity ql with
    | some maturity =>
      .toolCall "search_cves_by_exploit_maturity"
        [("maturity", .str maturity), ("limit", .int 5)]
    | none =>
      if ["search", "find", "look"].any (fun w => pySubstr w ql) then
        let keywords := strippedKeywords ql
        if keywords ≠ [] then
          .toolCall "search_cves_by_keyword"
            [("keyword", .str (String.mk keywords)), ("limit", .int 5)]
        else .helpMessage helpText
      else .helpMessage helpText

/-! Concrete fixtures used by the witness and counterexample theorems. -/

/-- A database in which every query matches zero records. -/
def dbEmpty : CveDb :=
  { find_by_cve_number := fun _ => none
    find_by_severity := fun _ _ => [] }

/-- A renderer producing empty text for every record. -/
def rNull : Renderer :=
  { render_cve_json := fun _ => ""
    render_cve_markdown := fun _ => ""
    render_cve_summary := fun _ => ""
    render_cve_detailed := fun _ => ""
    render_cve_list := fun _ => "" }

/-- An input schema with no declared parameters. -/
def emptySchema : Schema := ⟨[], []⟩

/-- A callable that returns normally. -/
def premiumFn : ToolFn := fun _ => .ok (.str "ok")

/-- A callable that raises an exception whose message is empty
(`raise ValueError()` gives str(e) = ""). -/
def boomFn : ToolFn := fun _ => .error (.exc "")

/-- A callable that raises a fastapi HTTPException. -/
def boomHttpFn : ToolFn := fun _ => .error (.httpExc 500 "downstream fault")

/-- A callable mirroring get_cve_details bound over the empty database. -/
def detailsFn : ToolFn := fun _ => .ok (get_cve_details dbEmpty rNull "CVE-0000-0000" "detailed")

/-- A registry holding one tool restricted to PREMIUM and ADMIN, mirroring
the registration of search_cves_by_cvss_score. -/
def regPremium : MCPToolRegistry :=
  MCPToolRegistry.init.register_tool "search_cves_by_cvss_score" premiumFn
    "Search CVEs by CVSS score range" emptySchema
    (some [ProductProfile.PREMIUM, ProductProfile.ADMIN]) none

/-- The descriptor regPremium holds. -/
def premiumTool : Tool :=
  Tool.make "search_cves_by_cvss_score" premiumFn
    "Search CVEs by CVSS score range" emptySchema
    (some [ProductProfile.PREMIUM, ProductProfile.ADMIN]) none

/-- A registry holding two COMMON tools whose callables raise. -/
def regBoom : MCPToolRegistry :=
  (MCPToolRegistry.init.register_tool "raise_plain" boomFn "d" emptySchema
      (some [ProductProfile.COMMON]) none).register_tool "raise_http"
    boomHttpFn "d" emptySchema (some [ProductProfile.COMMON]) none

/-- The raise_plain descriptor regBoom holds. -/
def boomTool : Tool :=
  Tool.make "raise_plain" boomFn "d" emptySchema (some [ProductProfile.COMMON]) none

/-- The raise_http descriptor regBoom holds. -/
def boomHttpTool : Tool :=
  Tool.make "raise_http" boomHttpFn "d" emptySchema (some [ProductProfile.COMMON]) none

/-- A registry holding detailsFn under the real tool name and profile set. -/
def regDetails : MCPToolRegistry :=
  MCPToolRegistry.init.register_tool "get_cve_details" detailsFn
    "Fetch details of a CVE by ID." emptySchema
    (some [ProductProfile.COMMON, ProductProfile.PREMIUM, ProductProfile.ADMIN]) none

/-- The descriptor regDetails holds. -/
def detailsTool : Tool :=
  Tool.make "get_cve_details" detailsFn "Fetch details of a CVE by ID."
    emptySchema
    (some [ProductProfile.COMMON, ProductProfile.PREMIUM, ProductProfile.ADMIN]) none

/-- A declared-parameter list exercising every annotation case. -/
def sampleParams : List PyParam :=
  [⟨"cve_id", some (.other "str"), false⟩, ⟨"limit", some .int, true⟩,
   ⟨"score", some .float, true⟩, ⟨"flag", some .bool, false⟩,
   ⟨"fmt", none, true⟩]

/-- A callable declaration with the sample parameters and a docstring. -/
def sampleFunc : FuncDecl :=
  ⟨"sample_tool", some "Sample docstring", sampleParams, fun _ => .ok .null⟩

/-- A startup sequence registering one tool with an explicitly empty profile
list and one through the decorator with profiles omitted. -/
def sampleOps : List RegistryOp :=
  [.register "t_empty" premiumFn "d" emptySchema (some []) none,
   .decorate none none none none sampleFunc]

/-! Helper lemmas. -/

/-- Boolean membership test agrees with list membership for profiles. -/
theorem contains_iff_mem (l : List ProductProfile) (p : ProductProfile) :
    l.contains p = true ↔ p ∈ l := by
  induction l with
  | nil => simp [List.contains]
  | cons a t ih =>
    simp only [List.contains_cons, Bool.or_eq_true, beq_iff_eq, List.mem_cons, ih]

/-- Looking up the key just stored by `dictInsert` returns the stored
binding. -/
theorem find?_dictInsert_self (l : List (String × Tool)) (k : String) (v : Tool) :
    (dictInsert k v l).find? (fun kv => kv.1 == k) = some (k, v) := by
  induction l with
  | nil => simp [dictInsert]
  | cons kv₀ t ih =>
    by_cases h : kv₀.1 = k
    · simp [dictInsert, h]
    · simp [dictInsert, h, List.find?, ih]

/-- Every binding of `dictInsert k v l` is either the new binding or one of
the old ones. -/
theorem mem_dictInsert (l : List (String × Tool)) (k : String) (v : Tool) :
    ∀ kv ∈ dictInsert k v l, kv = (k, v) ∨ kv ∈ l := by
  induction l with
  | nil =>
    intro kv h
    simp only [dictInsert, List.mem_singleton] at h
    exact Or.inl h
  | cons kv₀ t ih =>
    intro kv h
    by_cases hk : kv₀.1 = k
    · simp only [dictInsert, if_pos hk, List.mem_cons] at h
      rcases h with h | h
      · exact Or.inl h
      · exact Or.inr (List.mem_cons_of_mem _ h)
    · simp only [dictInsert, if_neg hk, List.mem_cons] at h
      rcases h with h | h
      · exact Or.inr (h ▸ List.mem_cons_self kv₀ t)
      · rcases ih kv h with h | h
        · exact Or.inl h
        · exact Or.inr (List.mem_cons_of_mem _ h)

/-- Tool construction never yields an empty permitted-profile set: both
None and the explicit empty list are replaced by [COMMON]. -/
theorem Tool.make_profiles_ne_nil (name : String) (func : ToolFn)
    (description : String) (input_schema : Schema)
    (product_profiles : Option (List ProductProfile))
    (metadata : Option (List (String × PyVal))) :
    (Tool.make name func description input_schema product_profiles
      metadata).product_profiles ≠ [] := by
  cases product_profiles with
  | none => simp [Tool.make]
  | some ps =>
    cases ps with
    | nil => simp [Tool.make]
    | cons a t => simp [Tool.make]

/-- A registry in which every stored descriptor has a non-empty permitted
profile set. -/
def goodReg (reg : MCPToolRegistry) : Prop :=
  ∀ kv ∈ reg.tools, kv.2.product_profiles ≠ []

/-- One registration call preserves the non-empty-profile invariant. -/
theorem goodReg_applyOp (reg : MCPToolRegistry) (op : RegistryOp)
    (h : goodReg reg) : goodReg (reg.applyOp op) := by
  have step :
      ∀ (name : String) (func : ToolFn) (description : String)
        (input_schema : Schema) (pp : Option (List ProductProfile))
        (md : Option (List (String × PyVal))),
        goodReg (reg.register_tool name func description input_schema pp md) := by
    intro name func description input_schema pp md kv hkv
    rcases mem_dictInsert _ _ _ _ hkv with hkv | hkv
    · rw [hkv]
      exact Tool.make_profiles_ne_nil name func description input_schema pp md
    · exact h kv hkv
  cases op with
  | register name func description input_schema pp md =>
    exact step name func description input_schema pp md
  | decorate description input_schema pp md f =>
    exact step f.name f.fn _ _ pp md

/-- A whole startup sequence preserves the non-empty-profile invariant. -/
theorem goodReg_applyOps (ops : List RegistryOp) :
    ∀ reg : MCPToolRegistry, goodReg reg → goodReg (reg.applyOps ops) := by
  induction ops with
  | nil => intro reg h; exact h
  | cons op rest ih =>
    intro reg h
    exact ih (reg.applyOp op) (goodReg_applyOp reg op h)

/-! Claim theorems. -/

/-- C9: ProductProfile.from_code lower-cases its input, returns the
enumerated profile whose canonical code equals the normalized input when
one exists, and returns COMMON for any unrecognized input; being a total
Lean function over strings, it never raises. -/
theorem from_code_spec :
    (∀ (code : String) (p : ProductProfile),
      p.value = String.mk (pyLower code.toList) →
      ProductProfile.from_code code = p) ∧
    (∀ code : String,
      (∀ p ∈ ProductProfile.all, p.value ≠ String.mk (pyLower code.toList)) →
      ProductProfile.from_code code = ProductProfile.COMMON) := by
  constructor
  · intro code p h
    cases p <;>
      (simp only [ProductProfile.from_code]
       rw [← h]
       rfl)
  · intro code h
    have hc : ∀ p ∈ ProductProfile.all,
        (p.value == String.mk (pyLower code.toList)) = false :=
      fun p hp => beq_eq_false_iff_ne.mpr (h p hp)
    simp only [ProductProfile.all, List.mem_cons, List.not_mem_nil] at hc
    simp only [String.toList] at hc
    simp [ProductProfile.from_code, ProductProfile.all, List.find?,
      hc ProductProfile.COMMON (by simp), hc ProductProfile.ADMIN (by simp),
      hc ProductProfile.PREMIUM (by simp), hc ProductProfile.BASIC (by simp)]

/-- C9 witness: case-insensitive hit on an enumerated code, and the COMMON
fallback on an unrecognized code. -/
theorem from_code_spec_witness :
    ProductProfile.from_code "AdMiN" = ProductProfile.ADMIN ∧
    ProductProfile.from_code "bogus" = ProductProfile.COMMON :=
  ⟨from_code_spec.1 "AdMiN" ProductProfile.ADMIN (by decide),
   from_code_spec.2 "bogus" (by decide)⟩

/-- C5: for a profile P other than ADMIN, a tool is in list_tools(P) exactly
when it is a registered tool whose product_profiles contain P; with the
profile omitted or equal to ADMIN, list_tools returns every registered
tool. -/
theorem list_tools_filtering (reg : MCPToolRegistry) :
    (∀ (p : ProductProfile) (t : Tool), p ≠ ProductProfile.ADMIN →
      (t ∈ reg.list_tools (some p) ↔ t ∈ reg.values ∧ p ∈ t.product_profiles)) ∧
    reg.list_tools none = reg.values ∧
    reg.list_tools (some ProductProfile.ADMIN) = reg.values := by
  refine ⟨?_, rfl, by simp [MCPToolRegistry.list_tools]⟩
  intro p t hp
  simp only [MCPToolRegistry.list_tools, if_neg hp, List.mem_filter,
    contains_iff_mem]

/-- C5 witness: PREMIUM sees the PREMIUM-restricted tool of the sample
registry. -/
theorem list_tools_filtering_witness :
    premiumTool ∈ regPremium.list_tools (some ProductProfile.PREMIUM) :=
  ((list_tools_filtering regPremium).1 ProductProfile.PREMIUM premiumTool
      (by decide)).mpr
    ⟨List.mem_singleton.mpr rfl, by decide⟩

/-- C1: when the resolved tool exists and the caller profile is neither
ADMIN nor a member of the tool permitted-profile set, dispatch stops at the
authorization check with a 403 access-denied error whose detail names the
required profile set, and the bound callable is never invoked; with caller
profile ADMIN the check passes regardless of the declared set and dispatch
proceeds to invocation. -/
theorem call_tool_access_control (reg : MCPToolRegistry) (name : String)
    (args : Args) (hdr : String) (tool : Tool)
    (hget : reg.get_tool name = some tool) :
    (ProductProfile.from_code hdr ≠ ProductProfile.ADMIN →
      ProductProfile.from_code hdr ∉ tool.product_profiles →
      call_tool reg name args hdr =
        (.httpError 403 (accessDeniedDetail tool.product_profiles), false)) ∧
    (ProductProfile.from_code hdr = ProductProfile.ADMIN →
      call_tool reg name args hdr = (invoke tool args, true)) := by
  constructor
  · intro hadm hmem
    have hcont : tool.product_profiles.contains
        (ProductProfile.from_code hdr) = false := by
      rw [← Bool.not_eq_true, contains_iff_mem]
      exact hmem
    simp [call_tool, hget, hcont, hadm, hmem]
  · intro hadm
    simp [call_tool, hget, hadm]

/-- C1 witness: the COMMON caller is denied the PREMIUM/ADMIN-restricted
tool with a 403 naming the required set and no invocation, while the ADMIN
caller reaches invocation of the same tool. -/
theorem call_tool_access_control_witness :
    call_tool regPremium "search_cves_by_cvss_score" [] "common" =
      (.httpError 403
        (accessDeniedDetail [ProductProfile.PREMIUM, ProductProfile.ADMIN]),
       false) ∧
    call_tool regPremium "search_cves_by_cvss_score" [] "admin" =
      (.envelope "success" (some (.str "ok")) none, true) :=
  ⟨(call_tool_access_control regPremium "search_cves_by_cvss_score" [] "common"
      premiumTool rfl).1 (by decide) (by decide),
   (call_tool_access_control regPremium "search_cves_by_cvss_score" [] "admin"
      premiumTool rfl).2 (by decide)⟩

/-- C2 counterexample: the claim promises a non-empty error string and that
no exception raised during invocation ever propagates past the dispatcher.
A callable raising an exception with an empty message (str(e) = "") yields
the envelope with the EMPTY error string, and a callable raising a fastapi
HTTPException is re-raised by the dispatcher (an HTTP fault, not the
envelope), refuting both parts at concrete inputs. -/
theorem dispatch_exception_counterexample :
    call_tool regBoom "raise_plain" [] "common" =
      (.envelope "error" none (some ""), true) ∧
    String.length "" = 0 ∧
    call_tool regBoom "raise_http" [] "common" =
      (.httpError 500 "downstream fault", true) :=
  ⟨rfl, rfl, rfl⟩

/-- C2 (amended): when the resolved, authorized tool callable raises a
non-HTTPException, the dispatcher catches it and returns the envelope
{status:"error", error: str(e)} — a string that may be empty; when the
callable raises an HTTPException, the dispatcher re-raises it and the
exception propagates past the dispatcher as an HTTP error response. -/
theorem dispatch_exception_envelope (reg : MCPToolRegistry) (name : String)
    (args : Args) (hdr : String) (tool : Tool)
    (hget : reg.get_tool name = some tool)
    (hauth : ProductProfile.from_code hdr ∈ tool.product_profiles ∨
      ProductProfile.from_code hdr = ProductProfile.ADMIN) :
    (∀ msg : String, tool.func args = .error (.exc msg) →
      call_tool reg name args hdr = (.envelope "error" none (some msg), true)) ∧
    (∀ (statusCode : Nat) (detail : String),
      tool.func args = .error (.httpExc statusCode detail) →
      call_tool reg name args hdr = (.httpError statusCode detail, true)) := by
  have hcond : ¬ (¬ tool.product_profiles.contains
      (ProductProfile.from_code hdr) = true ∧
      ProductProfile.from_code hdr ≠ ProductProfile.ADMIN) := by
    rcases hauth with hmem | hadm
    · intro hc
      exact hc.1 ((contains_iff_mem _ _).mpr hmem)
    · intro hc
      exact hc.2 hadm
  constructor
  · intro msg hfn
    simp only [call_tool, hget, if_neg hcond, invoke, Tool.execute, hfn]
  · intro statusCode detail hfn
    simp only [call_tool, hget, if_neg hcond, invoke, Tool.execute, hfn]

/-- C2 witness: an ADMIN caller dispatching each raising tool observes the
error envelope with the (empty) message string and the propagated HTTP
fault respectively. -/
theorem dispatch_exception_envelope_witness :
    call_tool regBoom "raise_plain" [] "admin" =
      (.envelope "error" none (some ""), true) ∧
    call_tool regBoom "raise_http" [] "admin" =
      (.httpError 500 "downstream fault", true) :=
  ⟨(dispatch_exception_envelope regBoom "raise_plain" [] "admin" boomTool rfl
      (Or.inr (by decide))).1 "" rfl,
   (dispatch_exception_envelope regBoom "raise_http" [] "admin" boomHttpTool rfl
      (Or.inr (by decide))).2 500 "downstream fault" rfl⟩

/-- C4 counterexample: dispatching the unregistered name does_not_exist
produces the propagated 404 HTTPException (an HTTP error with the name
echoed in the detail), not a returned envelope of the form
{status:"error", error:"Tool does_not_exist not found"}. -/
theorem tool_not_found_counterexample :
    (call_tool regPremium "does_not_exist" [] "common").1 =
      .httpError 404 (toolNotFoundDetail "does_not_exist") ∧
    (call_tool regPremium "does_not_exist" [] "common").1 ≠
      .envelope "error" none (some (toolNotFoundDetail "does_not_exist")) := by
  refine ⟨rfl, ?_⟩
  have e : (call_tool regPremium "does_not_exist" [] "common").1 =
      .httpError 404 (toolNotFoundDetail "does_not_exist") := rfl
  rw [e]
  intro h
  exact DispatchOutcome.noConfusion h

/-- C4 (amended): for a tool name that resolves to no registered tool, the
dispatcher raises HTTPException(404) — surfaced to HTTP callers as a
not-found class failure, not a 500 and not a returned envelope — whose
detail is exactly Tool <name> not found with the requested name echoed in
single quotes, and the bound callable of no tool is invoked. -/
theorem tool_not_found_http404 (reg : MCPToolRegistry) (name : String)
    (args : Args) (hdr : String) (hget : reg.get_tool name = none) :
    call_tool reg name args hdr =
      (.httpError 404 (toolNotFoundDetail name), false) ∧
    toolNotFoundDetail name = "Tool " ++ sq ++ name ++ sq ++ " not found" := by
  constructor
  · simp [call_tool, hget]
  · rfl

/-- C4 witness: the premium caller also gets the 404 for an unknown name. -/
theorem tool_not_found_http404_witness :
    call_tool regPremium "does_not_exist" [] "premium" =
      (.httpError 404 (toolNotFoundDetail "does_not_exist"), false) :=
  (tool_not_found_http404 regPremium "does_not_exist" [] "premium" rfl).1

/-- C3 counterexample: the claim says EVERY registered tool returns the
tool-level dict {status:"error", message:...} on zero matching records, but
search_cves_by_severity returns status "success" with count 0 and no
message field when its query matches nothing. -/
theorem empty_result_counterexample :
    search_cves_by_severity dbEmpty rNull "CRITICAL" 10 "list" =
      .dict [("status", .str "success"), ("count", .int 0),
             ("data", .list []), ("rendered", .null),
             ("format", .str "list")] ∧
    (search_cves_by_severity dbEmpty rNull "CRITICAL" 10 "list").get "status" =
      some (.str "success") ∧
    (search_cves_by_severity dbEmpty rNull "CRITICAL" 10 "list").get "message" =
      none :=
  ⟨rfl, rfl, rfl⟩

/-- C3 (amended): get_cve_details returns the tool-level dict
{status:"error", message:"CVE <id> not found"} with a non-empty message
when its lookup matches no record, and dispatching it then yields outer
envelope status "success" around that nested tool-level error; the
list-returning search tools instead report tool-level status "success"
with count 0, empty data and null rendered on zero matching records
(shown for search_cves_by_severity). -/
theorem empty_result_two_layer :
    (∀ (db : CveDb) (r : Renderer) (cve_id output_format : String),
      db.find_by_cve_number cve_id = none →
      get_cve_details db r cve_id output_format =
        .dict [("status", .str "error"),
               ("message", .str ("CVE " ++ cve_id ++ " not found"))] ∧
      0 < ("CVE " ++ cve_id ++ " not found").length) ∧
    (∀ (reg : MCPToolRegistry) (name : String) (tool : Tool) (args : Args)
        (hdr : String) (db : CveDb) (r : Renderer) (cve_id output_format : String),
      reg.get_tool name = some tool →
      (ProductProfile.from_code hdr ∈ tool.product_profiles ∨
        ProductProfile.from_code hdr = ProductProfile.ADMIN) →
      tool.func args = .ok (get_cve_details db r cve_id output_format) →
      db.find_by_cve_number cve_id = none →
      call_tool reg name args hdr =
        (.envelope "success"
          (some (.dict [("status", .str "error"),
                        ("message", .str ("CVE " ++ cve_id ++ " not found"))]))
          none, true)) ∧
    (∀ (db : CveDb) (r : Renderer) (severity : String) (limit : Int)
        (output_format : String),
      db.find_by_severity severity limit = [] →
      search_cves_by_severity db r severity limit output_format =
        .dict [("status", .str "success"), ("count", .int 0),
               ("data", .list []), ("rendered", .null),
               ("format", .str output_format)]) := by
  refine ⟨?_, ?_, ?_⟩
  · intro db r cve_id output_format hdb
    refine ⟨by simp [get_cve_details, hdb], ?_⟩
    simp only [String.length_append]
    have h4 : "CVE ".length = 4 := rfl
    omega
  · intro reg name tool args hdr db r cve_id output_format hget hauth hfn hdb
    have hcond : ¬ (¬ tool.product_profiles.contains
        (ProductProfile.from_code hdr) = true ∧
        ProductProfile.from_code hdr ≠ ProductProfile.ADMIN) := by
      rcases hauth with hmem | hadm
      · intro hc
        exact hc.1 ((contains_iff_mem _ _).mpr hmem)
      · intro hc
        exact hc.2 hadm
    simp only [call_tool, hget, if_neg hcond, invoke, Tool.execute, hfn,
      get_cve_details, hdb]
  · intro db r severity limit output_format hdb
    simp [search_cves_by_severity, hdb]

/-- C3 witness: the empty database exercised at concrete inputs through all
three parts, including a full dispatch showing outer success around the
nested tool-level error. -/
theorem empty_result_two_layer_witness :
    get_cve_details dbEmpty rNull "CVE-0000-0000" "summary" =
      .dict [("status", .str "error"),
             ("message", .str "CVE CVE-0000-0000 not found")] ∧
    call_tool regDetails "get_cve_details" [] "common" =
      (.envelope "success"
        (some (.dict [("status", .str "error"),
                      ("message", .str "CVE CVE-0000-0000 not found")]))
        none, true) ∧
    search_cves_by_severity dbEmpty rNull "HIGH" 5 "json" =
      .dict [("status", .str "success"), ("count", .int 0),
             ("data", .list []), ("rendered", .null),
             ("format", .str "json")] :=
  ⟨(empty_result_two_layer.1 dbEmpty rNull "CVE-0000-0000" "summary" rfl).1,
   empty_result_two_layer.2.1 regDetails "get_cve_details" detailsTool []
     "common" dbEmpty rNull "CVE-0000-0000" "detailed" rfl
     (Or.inl (by decide)) rfl rfl,
   empty_result_two_layer.2.2 dbEmpty rNull "HIGH" 5 "json" rfl⟩

/-- C6 counterexample: the claim routes "Find critical vulnerabilities" to
a severity-search tool with severity "CRITICAL", limit 10 and output_format
"list"; the rule-based classifier has no severity rule and instead routes
the query to search_cves_by_keyword with the stripped lowercased text and
limit 5. -/
theorem severity_rule_counterexample :
    process_rule_based "Find critical vulnerabilities" =
      .toolCall "search_cves_by_keyword"
        [("keyword", .str "critical vulnerabilities"), ("limit", .int 5)] ∧
    process_rule_based "Find critical vulnerabilities" ≠
      .toolCall "search_cves_by_severity"
        [("severity", .str "CRITICAL"), ("limit", .int 10),
         ("output_format", .str "list")] := by
  refine ⟨rfl, ?_⟩
  have e : process_rule_based "Find critical vulnerabilities" =
      .toolCall "search_cves_by_keyword"
        [("keyword", .str "critical vulnerabilities"), ("limit", .int 5)] := rfl
  rw [e]
  intro h
  injection h with h1 h2
  exact absurd h1 (by decide)

/-- C6 (amended): the classifier has no severity-keyword rule. A query with
no CVE identifier and no maturity keyword that contains one of search,
find, look (as "Find critical vulnerabilities" does) is routed to
search_cves_by_keyword with keyword equal to the lowercased query stripped
of "search for", "find" and "look for", and limit 5 — never to a
severity-search tool. -/
theorem classifier_no_severity_rule (q : String) (kw : List Char)
    (hcve : findCveMatch (pyLower q.toList) = none)
    (hmat : findMaturity (pyLower q.toList) = none)
    (hsw : (["search", "find", "look"].any
      (fun w => pySubstr w (pyLower q.toList))) = true)
    (hkw : strippedKeywords (pyLower q.toList) = kw)
    (hne : kw ≠ []) :
    process_rule_based q =
      .toolCall "search_cves_by_keyword"
        [("keyword", .str (String.mk kw)), ("limit", .int 5)] := by
  simp only [process_rule_based, hcve, hmat, hsw, hkw, if_true, hne,
    ne_eq, not_false_eq_true, if_pos]

/-- C6 witness: the concrete spec query, with every rule hypothesis
discharged by evaluation. -/
theorem classifier_no_severity_rule_witness :
    process_rule_based "Find critical vulnerabilities" =
      .toolCall "search_cves_by_keyword"
        [("keyword", .str "critical vulnerabilities"), ("limit", .int 5)] :=
  classifier_no_severity_rule "Find critical vulnerabilities"
    "critical vulnerabilities".toList rfl rfl rfl rfl (by decide)

/-- C7 counterexample: the claim says a query matching no earlier rule
always reaches a keyword-search fallback carrying the original query text
and limit 10; the classifier instead returns the help-message response for
"xyzzy12345" (which contains none of search, find, look) and never calls
the keyword-search tool for it. -/
theorem fallback_counterexample :
    process_rule_based "xyzzy12345" = .helpMessage helpText ∧
    process_rule_based "xyzzy12345" ≠
      .toolCall "search_cves_by_keyword"
        [("keyword", .str "xyzzy12345"), ("limit", .int 10),
         ("output_format", .str "list")] := by
  refine ⟨rfl, ?_⟩
  have e : process_rule_based "xyzzy12345" = .helpMessage helpText := rfl
  rw [e]
  intro h
  exact RuleDecision.noConfusion h

/-- C7 (amended): the final catch-all of the classifier is a help-message
response, not a keyword search: a query matching no CVE-identifier rule and
no maturity keyword and containing none of search, find, look yields the
help text with no tool routed; the classifier is still total — it returns a
decision for every query. -/
theorem classifier_help_fallback (q : String)
    (hcve : findCveMatch (pyLower q.toList) = none)
    (hmat : findMaturity (pyLower q.toList) = none)
    (hsw : (["search", "find", "look"].any
      (fun w => pySubstr w (pyLower q.toList))) = false) :
    process_rule_based q = .helpMessage helpText := by
  simp only [process_rule_based, hcve, hmat, hsw, if_false, Bool.false_eq_true]

/-- C7 witness: the concrete no-rule query of the spec reaches the help
message. -/
theorem classifier_help_fallback_witness :
    process_rule_based "xyzzy12345" = .helpMessage helpText :=
  classifier_help_fallback "xyzzy12345" rfl rfl rfl

/-- C8: registering a callable without an explicit schema stores the
auto-derived schema; that schema has exactly one property per declared
parameter, tagged integer for int, number for float, boolean for bool and
string otherwise (including a missing annotation), and lists a parameter
as required exactly when it declares no default value. -/
theorem auto_schema_spec :
    (∀ (reg : MCPToolRegistry) (description : Option String)
        (profiles : Option (List ProductProfile))
        (metadata : Option (List (String × PyVal))) (f : FuncDecl),
      (reg.tool description none profiles metadata f).get_tool f.name =
        some (Tool.make f.name f.fn (toolDescription description f)
          (derive_schema f.params) profiles metadata)) ∧
    (∀ (params : List PyParam) (n tg : String),
      (n, tg) ∈ (derive_schema params).properties ↔
        ∃ p, p ∈ params ∧ p.name = n ∧ paramTypeTag p.ann = tg) ∧
    (∀ (params : List PyParam) (n : String),
      n ∈ (derive_schema params).required ↔
        ∃ p, p ∈ params ∧ p.hasDefault = false ∧ p.name = n) ∧
    paramTypeTag (some .int) = "integer" ∧
    paramTypeTag (some .float) = "number" ∧
    paramTypeTag (some .bool) = "boolean" ∧
    paramTypeTag none = "string" ∧
    (∀ s : String, paramTypeTag (some (.other s)) = "string") := by
  refine ⟨?_, ?_, ?_, rfl, rfl, rfl, rfl, fun s => rfl⟩
  · intro reg description profiles metadata f
    simp only [MCPToolRegistry.tool, MCPToolRegistry.register_tool,
      MCPToolRegistry.get_tool, find?_dictInsert_self]
    rfl
  · intro params n tg
    simp only [derive_schema, List.mem_map, Prod.mk.injEq]
  · intro params n
    simp only [derive_schema, List.mem_map, List.mem_filter,
      Bool.not_eq_true']
    constructor
    · rintro ⟨p, ⟨hp, hd⟩, h1⟩
      exact ⟨p, hp, hd, h1⟩
    · rintro ⟨p, hp, hd, h1⟩
      exact ⟨p, ⟨hp, hd⟩, h1⟩

/-- C8 witness: the sample callable registered through the decorator with
no explicit schema, plus concrete property and required memberships for
every annotation case. -/
theorem auto_schema_spec_witness :
    (MCPToolRegistry.init.tool none none none none sampleFunc).get_tool
        "sample_tool" =
      some (Tool.make "sample_tool" sampleFunc.fn
        (toolDescription none sampleFunc) (derive_schema sampleParams)
        none none) ∧
    ("limit", "integer") ∈ (derive_schema sampleParams).properties ∧
    ("score", "number") ∈ (derive_schema sampleParams).properties ∧
    ("flag", "boolean") ∈ (derive_schema sampleParams).properties ∧
    ("fmt", "string") ∈ (derive_schema sampleParams).properties ∧
    ("cve_id", "string") ∈ (derive_schema sampleParams).properties ∧
    "cve_id" ∈ (derive_schema sampleParams).required :=
  ⟨auto_schema_spec.1 MCPToolRegistry.init none none none sampleFunc,
   (auto_schema_spec.2.1 sampleParams "limit" "integer").mpr
     ⟨⟨"limit", some .int, true⟩, by decide, rfl, rfl⟩,
   (auto_schema_spec.2.1 sampleParams "score" "number").mpr
     ⟨⟨"score", some .float, true⟩, by decide, rfl, rfl⟩,
   (auto_schema_spec.2.1 sampleParams "flag" "boolean").mpr
     ⟨⟨"flag", some .bool, false⟩, by decide, rfl, rfl⟩,
   (auto_schema_spec.2.1 sampleParams "fmt" "string").mpr
     ⟨⟨"fmt", none, true⟩, by decide, rfl, rfl⟩,
   (auto_schema_spec.2.1 sampleParams "cve_id" "string").mpr
     ⟨⟨"cve_id", some (.other "str"), false⟩, by decide, rfl, rfl⟩,
   (auto_schema_spec.2.2.1 sampleParams "cve_id").mpr
     ⟨⟨"cve_id", some (.other "str"), false⟩, by decide, rfl, rfl⟩⟩

/-- C10: Tool construction replaces an omitted (None) and an explicitly
empty profile list by [COMMON], so after any startup sequence of
registration calls every tool observable through get_tool or list_tools
has a non-empty permitted-profile set. -/
theorem profiles_nonempty_invariant :
    (∀ (name : String) (func : ToolFn) (description : String)
        (input_schema : Schema) (metadata : Option (List (String × PyVal))),
      (Tool.make name func description input_schema (some [])
        metadata).product_profiles = [ProductProfile.COMMON] ∧
      (Tool.make name func description input_schema none
        metadata).product_profiles = [ProductProfile.COMMON]) ∧
    (∀ (ops : List RegistryOp) (name : String) (t : Tool),
      (MCPToolRegistry.init.applyOps ops).get_tool name = some t →
      t.product_profiles ≠ []) ∧
    (∀ (ops : List RegistryOp) (pp : Option ProductProfile) (t : Tool),
      t ∈ (MCPToolRegistry.init.applyOps ops).list_tools pp →
      t.product_profiles ≠ []) := by
  have hgood : ∀ ops : List RegistryOp,
      goodReg (MCPToolRegistry.init.applyOps ops) := by
    intro ops
    refine goodReg_applyOps ops MCPToolRegistry.init ?_
    intro kv hkv
    simp [MCPToolRegistry.init] at hkv
  refine ⟨fun name func description input_schema metadata => ⟨rfl, rfl⟩, ?_, ?_⟩
  · intro ops name t hget
    have hmem : (name, t) ∈ (MCPToolRegistry.init.applyOps ops).tools := by
      simp only [MCPToolRegistry.get_tool, Option.map_eq_some'] at hget
      obtain ⟨kv, hfind, hsnd⟩ := hget
      have hk : kv.1 = name := by
        have := List.find?_some hfind
        simpa using this
      have := List.mem_of_find?_eq_some hfind
      rw [← hk, ← hsnd]
      simpa using this
    exact hgood ops (name, t) hmem
  · intro ops pp t hmem
    have hval : t ∈ (MCPToolRegistry.init.applyOps ops).values := by
      cases pp with
      | none => exact hmem
      | some p =>
        by_cases hp : p = ProductProfile.ADMIN
        · simpa [MCPToolRegistry.list_tools, hp] using hmem
        · have h2 : t ∈ (MCPToolRegistry.init.applyOps ops).values ∧
              p ∈ t.product_profiles := by
            simpa [MCPToolRegistry.list_tools, hp, List.mem_filter,
              contains_iff_mem] using hmem
          exact h2.1
    obtain ⟨kv, hkv, hsnd⟩ := List.mem_map.mp hval
    rw [← hsnd]
    exact hgood ops kv hkv

/-- C10 witness: after registering one tool with an explicitly empty
profile list and one through the decorator with profiles omitted, both
retrieved descriptors carry [COMMON]. -/
theorem profiles_nonempty_invariant_witness :
    (Tool.make "t_empty" premiumFn "d" emptySchema (some [])
      none).product_profiles = [ProductProfile.COMMON] ∧
    (Tool.make "t_empty" premiumFn "d" emptySchema (some [])
      none).product_profiles ≠ [] ∧
    (Tool.make "sample_tool" sampleFunc.fn (toolDescription none sampleFunc)
      (derive_schema sampleParams) none none).product_profiles ≠ [] :=
  ⟨(profiles_nonempty_invariant.1 "t_empty" premiumFn "d" emptySchema none).1,
   profiles_nonempty_invariant.2.1 sampleOps "t_empty"
     (Tool.make "t_empty" premiumFn "d" emptySchema (some []) none) rfl,
   profiles_nonempty_invariant.2.1 sampleOps "sample_tool"
     (Tool.make "sample_tool" sampleFunc.fn (toolDescription none sampleFunc)
       (derive_schema sampleParams) none none) rfl⟩

end CveMcp
